import Mathlib

/-!
Shallow embedding of the zk-api attendance synchronization engine.

Sources embedded:
  * src/devices/api_services.py   (ZKAPIService: `_request` outcomes, get_employees,
    get_attendance_records, sync_employees, sync_attendance)
  * src/devices/services.py       (ZKDeviceService: get_attendance_records, sync_attendance)
  * src/devices/management/commands/sync_devices.py (multi-device batch loop)
  * src/devices/models.py         (ZKDevice, DeviceSyncLog)
  * src/attendance/models.py      (Employee, AttendanceRecord)

Modelling conventions:
  * Timestamps are natural numbers; `timezone.now()` becomes an explicit `now`
    parameter. Every timestamp written during one pass uses that `now`.
  * JSON scalar values are `Value` (string or integer); Python truthiness is
    `Value.truthy` / `otruthy` (absent key = `none` = falsy).
  * The relational store is `DB`: the set of Employee rows (their employee_id
    values), the AttendanceRecord rows, and the DeviceSyncLog rows, threaded
    through the engine exactly where the Django ORM commits.
  * Transport outcomes are explicit: `_request` either returns parsed JSON or
    an error string; an exception escaping into an engine `try` block is the
    `FetchOutcome.raise` constructor (caught by the engine's `except Exception`).
  * Per-record `try/except ...: continue` blocks are modelled by the skip
    branches of the per-record step functions; the only record-level failures
    reachable in the embedding (missing employee row, uniqueness violation)
    are modelled explicitly.
-/

/-- A scalar JSON value handled by the adapters: a string or an integer. -/
inductive Value where
  | str (s : String)
  | int (n : Int)
  deriving DecidableEq, Repr

/-- Python truthiness of a scalar: empty string and zero are falsy. -/
def Value.truthy : Value → Bool
  | Value.str s => s != ""
  | Value.int n => n != 0

/-- Python truthiness of an optional value: a missing key (`None`) is falsy. -/
def otruthy : Option Value → Bool
  | none => false
  | some v => v.truthy

/-- Python `a or b` on two optional values: the first operand if truthy,
otherwise the second operand. -/
def pyOr (a b : Option Value) : Option Value :=
  if otruthy a then a else b

/-- Python `a or d` where the final operand `d` is a plain value (the default
at the end of an alias chain): the chain value if truthy, else the default. -/
def pyOrD (a : Option Value) (d : Value) : Value :=
  match a with
  | none => d
  | some v => if v.truthy then v else d

/-- Python `a or b` where `a` is an optional list (an absent key or a list):
an absent or empty list falls through to `b`. -/
def pyOrList {α : Type} (a : Option (List α)) (b : List α) : List α :=
  match a with
  | none => b
  | some xs => if xs.isEmpty then b else xs

/-- Timestamps (`timezone.now()`, `last_sync`, window bounds). -/
abbrev Time := Nat

/-- devices.models.ZKDevice (the fields the sync engine reads or writes). -/
structure Device where
  id : Int
  ip_address : String
  port : Int
  is_active : Bool
  last_sync : Option Time
  deriving DecidableEq, Repr

/-- attendance.models.AttendanceRecord: one persisted punch row. The employee
foreign key is represented by the referenced employee_id value. -/
structure AttendanceRecord where
  employee_id : Value
  punch_time : Value
  device_id : Value
  device_ip : String
  verification_mode : Value
  status : Value
  deriving DecidableEq, Repr

/-- devices.models.DeviceSyncLog: one row per sync attempt per device. -/
structure DeviceSyncLog where
  device_id : Int
  sync_type : String
  records_synced : Nat
  success : Bool
  error_message : String
  started_at : Time
  completed_at : Option Time
  deriving DecidableEq, Repr

/-- The committed relational store threaded through a sync pass: Employee rows
(keyed by employee_id), AttendanceRecord rows, DeviceSyncLog rows. -/
structure DB where
  employees : List Value
  attendance : List AttendanceRecord
  sync_logs : List DeviceSyncLog
  deriving DecidableEq, Repr

/-- A raw attendance mapping as returned by the wrapper API: each known alias
key is present (`some v`) or absent (`none`), mirroring Python `dict.get`. -/
structure RawAttendance where
  EmployeeID : Option Value
  EmployeeId : Option Value
  employee_id : Option Value
  emp_code : Option Value
  PunchTime : Option Value
  punch_time : Option Value
  DeviceID : Option Value
  device_id : Option Value
  VerificationMode : Option Value
  verify_type : Option Value
  Status : Option Value
  punch_state : Option Value
  deriving DecidableEq, Repr

/-- A raw attendance mapping with every alias key absent. -/
def RawAttendance.empty : RawAttendance :=
  ⟨none, none, none, none, none, none, none, none, none, none, none, none⟩

/-- The canonical attendance record produced by the adapter
(api_services.py lines 159-167): all five canonical keys present. -/
structure AdaptedAttendance where
  EmployeeID : Option Value
  PunchTime : Option Value
  DeviceID : Value
  VerificationMode : Value
  Status : Value
  deriving DecidableEq, Repr

/-- ZKAPIService.get_attendance_records adapter body (api_services.py
lines 146-167): resolve each canonical field through its alias chain with
Python `or` semantics; `DeviceID` falls back to the device's own id. -/
def adapt_attendance (device : Device) (r : RawAttendance) : AdaptedAttendance :=
  { EmployeeID := pyOr (pyOr (pyOr r.EmployeeID r.EmployeeId) r.employee_id) r.emp_code
    PunchTime := pyOr r.PunchTime r.punch_time
    DeviceID := pyOrD (pyOr r.DeviceID r.device_id) (Value.int device.id)
    VerificationMode := pyOrD (pyOr r.VerificationMode r.verify_type) (Value.int 0)
    Status := pyOrD (pyOr r.Status r.punch_state) (Value.int 0) }

/-- A raw employee mapping as returned by the wrapper API. -/
structure RawEmployee where
  EmployeeId : Option Value
  employee_id : Option Value
  EmployeeID : Option Value
  pin : Option Value
  emp_code : Option Value
  Name : Option Value
  name : Option Value
  full_name : Option Value
  Department : Option Value
  department : Option Value
  Position : Option Value
  position : Option Value
  deriving DecidableEq, Repr

/-- The canonical employee record produced by the adapter
(api_services.py lines 94-101). -/
structure AdaptedEmployee where
  pin : Option Value
  name : Value
  department : Value
  position : Value
  deriving DecidableEq, Repr

/-- ZKAPIService.get_employees adapter body (api_services.py lines 85-101).
Note `emp.get("full_name", "")` and `emp.get("department", "")` are
`dict.get` with a default, not part of the `or` chain. -/
def adaptEmployee (e : RawEmployee) : AdaptedEmployee :=
  { pin := pyOr (pyOr (pyOr (pyOr e.EmployeeId e.employee_id) e.EmployeeID) e.pin) e.emp_code
    name := pyOrD (pyOr e.Name e.name) (e.full_name.getD (Value.str ""))
    department := pyOrD e.Department (e.department.getD (Value.str ""))
    position := pyOrD e.Position (e.position.getD (Value.str "")) }

/-- The parsed JSON payload of a `/fetch-logs` response: the `success` flag,
the optional `error` key, and the four alias keys that may carry the list of
raw records. -/
structure ApiData where
  success : Bool
  error : Option String
  records : Option (List RawAttendance)
  attendance : Option (List RawAttendance)
  logs : Option (List RawAttendance)
  data : Option (List RawAttendance)
  deriving Repr

/-- api_services.py lines 138-144: `data.get("records") or data.get("attendance")
or data.get("logs") or data.get("data") or []` (first non-empty list wins). -/
def ApiData.rawRecords (d : ApiData) : List RawAttendance :=
  pyOrList d.records (pyOrList d.attendance (pyOrList d.logs (pyOrList d.data [])))

/-- The parsed JSON payload of a `/fetch-users` response. -/
structure EmpApiData where
  success : Bool
  error : Option String
  employees : Option (List RawEmployee)
  users : Option (List RawEmployee)
  data : Option (List RawEmployee)
  deriving Repr

/-- api_services.py lines 78-83: `data.get("employees") or data.get("users")
or data.get("data") or []`. -/
def EmpApiData.rawEmployees (d : EmpApiData) : List RawEmployee :=
  pyOrList d.employees (pyOrList d.users (pyOrList d.data []))

/-- Outcome of `ZKAPIService._request` (api_services.py lines 25-37): either
parsed JSON, or `(None, error-message)` on a request/JSON failure. -/
inductive ReqRes (α : Type) where
  | ok (d : α)
  | fail (msg : String)

/-- Outcome of a transport call as seen from inside an engine `try` block:
either `_request` returned normally, or an exception escaped up to the
engine's `except Exception` handler. -/
inductive FetchOutcome (α : Type) where
  | ret (r : ReqRes α)
  | raise (msg : String)

/-- ZKAPIService.get_attendance_records (api_services.py lines 131-169) applied
to a `_request` outcome: error string through, non-success payload to its
`error` field (default "Unknown error from wrapper API"), else adapt every
raw record. Returns (records, error). -/
def ZKAPIService.get_attendance_records (device : Device) (r : ReqRes ApiData) :
    List AdaptedAttendance × String :=
  match r with
  | ReqRes.fail msg => ([], msg)
  | ReqRes.ok d =>
    if d.success then (d.rawRecords.map (adapt_attendance device), "")
    else ([], d.error.getD "Unknown error from wrapper API")

/-- ZKAPIService.get_employees (api_services.py lines 71-103) applied to a
`_request` outcome. -/
def ZKAPIService.get_employees (r : ReqRes EmpApiData) :
    List AdaptedEmployee × String :=
  match r with
  | ReqRes.fail msg => ([], msg)
  | ReqRes.ok d =>
    if d.success then (d.rawEmployees.map adaptEmployee, "")
    else ([], d.error.getD "Unknown error from wrapper API")

/-- The default incremental lookback (`timezone.timedelta(days=7)`), one
abstract time unit per day. -/
def sevenDays : Time := 7

/-- The fixed historical start `datetime(2024, 8, 13)` used when
`fetch_all_from_225` is set (api_services.py line 248), as an abstract
instant. -/
def start225 : Time := 0

/-- The fetch-window start computed by ZKAPIService.sync_attendance
(api_services.py lines 247-252): the fixed historical start under the
full-history flag, else `device.last_sync or (end_time - timedelta(days=7))`. -/
def windowStart (device : Device) (now : Time) (fetchAll225 : Bool) : Time :=
  if fetchAll225 then start225 else device.last_sync.getD (now - sevenDays)

/-- The record-validity test `if employee_id and punch_time:`
(api_services.py line 267, services.py line 141). -/
def validA (a : AdaptedAttendance) : Bool :=
  otruthy a.EmployeeID && otruthy a.PunchTime

/-- The employee-id value of a validated record (guarded by `validA`). -/
def keyE (a : AdaptedAttendance) : Value :=
  a.EmployeeID.getD (Value.str "")

/-- The punch-time value of a validated record (guarded by `validA`). -/
def keyP (a : AdaptedAttendance) : Value :=
  a.PunchTime.getD (Value.str "")

/-- The dedup existence query `AttendanceRecord.objects.filter(
employee__employee_id=..., punch_time=..., device_ip=...).exists()`
(api_services.py lines 269-273); also the uniqueness predicate enforced by
`unique_together = ['employee', 'punch_time', 'device_ip']`
(attendance/models.py line 41). -/
def existsIn (atts : List AttendanceRecord) (eid pt : Value) (ip : String) : Bool :=
  atts.any fun a => decide (a.employee_id = eid ∧ a.punch_time = pt ∧ a.device_ip = ip)

/-- `Employee.objects.get(employee_id=...)` succeeds iff a row exists
(employee_id is unique, attendance/models.py line 14). -/
def hasEmployee (db : DB) (eid : Value) : Bool :=
  db.employees.any fun e => decide (e = eid)

/-- The AttendanceRecord row created for an adapted record
(api_services.py lines 276-283). -/
def toRow (device : Device) (a : AdaptedAttendance) : AttendanceRecord :=
  { employee_id := keyE a
    punch_time := keyP a
    device_id := a.DeviceID
    device_ip := device.ip_address
    verification_mode := a.VerificationMode
    status := a.Status }

/-- One iteration of the per-record loop in ZKAPIService.sync_attendance
(api_services.py lines 262-289): skip invalid records, skip records whose
dedup triple already exists, skip records whose employee row is missing
(`Employee.DoesNotExist` is caught and the loop continues), otherwise create
the row and count it. -/
def syncStep (device : Device) (st : DB × Nat) (record : AdaptedAttendance) : DB × Nat :=
  if validA record then
    if existsIn st.1.attendance (keyE record) (keyP record) device.ip_address then st
    else if hasEmployee st.1 (keyE record) then
      ({ st.1 with attendance := st.1.attendance ++ [toRow device record] }, st.2 + 1)
    else st
  else st

/-- The observable result of one sync pass: the store after all commits, the
device row (possibly with an advanced cursor), the returned pair
(synced count, error message), and the finalized DeviceSyncLog row. -/
structure PassResult where
  db : DB
  device : Device
  count : Nat
  error : String
  log : DeviceSyncLog
  deriving Repr

/-- ZKAPIService.sync_attendance (api_services.py lines 236-306).
The transport argument is the outcome of `get_attendance_records`' inner
`_request` call for the computed window; `FetchOutcome.raise` is any exception
escaping into the outer `try`, handled by its `except Exception` clause.
On the success path the whole fetched response is folded through `syncStep`
before `device.last_sync = end_time; device.save()` runs. -/
def ZKAPIService.sync_attendance
    (transport : Time → Time → FetchOutcome ApiData) (device : Device)
    (db : DB) (now : Time) (fetchAll225 : Bool) : PassResult :=
  match transport (windowStart device now fetchAll225) now with
  | FetchOutcome.raise msg =>
    let log : DeviceSyncLog := ⟨device.id, "attendance", 0, false, msg, now, some now⟩
    ⟨{ db with sync_logs := db.sync_logs ++ [log] }, device, 0, msg, log⟩
  | FetchOutcome.ret req =>
    let pr := ZKAPIService.get_attendance_records device req
    if pr.2 != "" then
      let log : DeviceSyncLog := ⟨device.id, "attendance", 0, false, pr.2, now, some now⟩
      ⟨{ db with sync_logs := db.sync_logs ++ [log] }, device, 0, pr.2, log⟩
    else
      let res := pr.1.foldl (syncStep device) (db, 0)
      let log : DeviceSyncLog := ⟨device.id, "attendance", res.2, true, "", now, some now⟩
      ⟨{ res.1 with sync_logs := res.1.sync_logs ++ [log] },
        { device with last_sync := some now }, res.2, "", log⟩

/-- One iteration of the per-record loop in ZKAPIService.sync_employees
(api_services.py lines 189-220): `update_or_create` keyed by the pin.
A record whose pin is absent (`None`) hits the NOT NULL constraint on
Employee.employee_id; the per-record `except Exception: continue` swallows it
and the count is not incremented. -/
def empStep (st : DB × Nat) (e : AdaptedEmployee) : DB × Nat :=
  match e.pin with
  | none => st
  | some p =>
    if st.1.employees.any fun x => decide (x = p) then (st.1, st.2 + 1)
    else ({ st.1 with employees := st.1.employees ++ [p] }, st.2 + 1)

/-- ZKAPIService.sync_employees (api_services.py lines 171-234). Note: on the
transport-error return path (lines 178-182) the log is saved without setting
`completed_at`; the success and exception paths do set it. -/
def ZKAPIService.sync_employees
    (transport : FetchOutcome EmpApiData) (device : Device)
    (db : DB) (now : Time) : PassResult :=
  match transport with
  | FetchOutcome.raise msg =>
    let log : DeviceSyncLog := ⟨device.id, "employees", 0, false, msg, now, some now⟩
    ⟨{ db with sync_logs := db.sync_logs ++ [log] }, device, 0, msg, log⟩
  | FetchOutcome.ret req =>
    let pr := ZKAPIService.get_employees req
    if pr.2 != "" then
      let log : DeviceSyncLog := ⟨device.id, "employees", 0, false, pr.2, now, none⟩
      ⟨{ db with sync_logs := db.sync_logs ++ [log] }, device, 0, pr.2, log⟩
    else
      let res := pr.1.foldl empStep (db, 0)
      let log : DeviceSyncLog := ⟨device.id, "employees", res.2, true, "", now, some now⟩
      ⟨{ res.1 with sync_logs := res.1.sync_logs ++ [log] }, device, res.2, "", log⟩

/-- A raw record as returned by the DLL bridge (services.py): the canonical
keys, each possibly absent (`record.get(...)` with defaults at use sites). -/
structure DllRecord where
  EmployeeID : Option Value
  PunchTime : Option Value
  DeviceID : Option Value
  VerificationMode : Option Value
  Status : Option Value
  deriving DecidableEq, Repr

/-- The parsed JSON result of the DLL `GetAttendanceRecords` call. -/
structure DllData where
  success : Bool
  records : Option (List DllRecord)
  error : Option String
  deriving Repr

/-- Outcome of the DLL call inside ZKDeviceService.get_attendance_records:
the DLL was never loaded, the reflective call or JSON parse raised (caught
inside get_attendance_records itself), or it produced a payload. -/
inductive DllFetch where
  | noDll
  | raise (msg : String)
  | ok (d : DllData)

/-- ZKDeviceService.get_attendance_records (services.py lines 74-98). -/
def ZKDeviceService.get_attendance_records (f : DllFetch) :
    List DllRecord × String :=
  match f with
  | DllFetch.noDll => ([], "DLL not loaded")
  | DllFetch.raise msg => ([], msg)
  | DllFetch.ok d =>
    if d.success then (d.records.getD [], "")
    else ([], d.error.getD "Unknown error")

/-- The record-validity test of the DLL loop (services.py line 141). -/
def validD (a : DllRecord) : Bool :=
  otruthy a.EmployeeID && otruthy a.PunchTime

/-- One iteration of the per-record loop in ZKDeviceService.sync_attendance
(services.py lines 136-156): no explicit dedup query; a duplicate
(employee, punch_time, device_ip) triple violates the model's
`unique_together` constraint at create time, the IntegrityError is swallowed
by `except Exception: continue`, and the count is not incremented. -/
def dllStep (device : Device) (st : DB × Nat) (record : DllRecord) : DB × Nat :=
  if validD record then
    let eid := record.EmployeeID.getD (Value.str "")
    let pt := record.PunchTime.getD (Value.str "")
    if hasEmployee st.1 eid then
      if existsIn st.1.attendance eid pt device.ip_address then st
      else
        ({ st.1 with attendance := st.1.attendance ++
            [⟨eid, pt, record.DeviceID.getD (Value.int 0), device.ip_address,
              record.VerificationMode.getD (Value.int 0),
              record.Status.getD (Value.int 0)⟩] }, st.2 + 1)
    else st
  else st

/-- ZKDeviceService.sync_attendance (services.py lines 115-171). Note: no
path ever sets `completed_at` on the log, and the error-return path saves the
log without a completion timestamp (lines 126-130, 161-163). -/
def ZKDeviceService.sync_attendance
    (fetch : Time → Time → DllFetch) (device : Device)
    (db : DB) (now : Time) : PassResult :=
  let pr := ZKDeviceService.get_attendance_records
    (fetch (device.last_sync.getD (now - sevenDays)) now)
  if pr.2 != "" then
    let log : DeviceSyncLog := ⟨device.id, "attendance", 0, false, pr.2, now, none⟩
    ⟨{ db with sync_logs := db.sync_logs ++ [log] }, device, 0, pr.2, log⟩
  else
    let res := pr.1.foldl (dllStep device) (db, 0)
    let log : DeviceSyncLog := ⟨device.id, "attendance", res.2, true, "", now, none⟩
    ⟨{ res.1 with sync_logs := res.1.sync_logs ++ [log] },
      { device with last_sync := some now }, res.2, "", log⟩

/-- The observable result of a multi-device batch run. -/
structure BatchResult where
  db : DB
  devices : List Device
  total : Nat
  deriving Repr

/-- The `--all` branch of the management command's attendance loop
(sync_devices.py lines 159-182): iterate the active devices; on a per-device
error report it and continue without adding to the total; otherwise add the
device's synced count. Each device's pass runs against the store left by the
previous device's pass. -/
def Command.sync_attendance_all
    (fetch : Device → Time → Time → FetchOutcome ApiData)
    (devices : List Device) (db : DB) (now : Time) : BatchResult :=
  (devices.filter fun d => d.is_active).foldl
    (fun acc d =>
      let r := ZKAPIService.sync_attendance (fetch d) d acc.db now false
      ⟨r.db, acc.devices ++ [r.device],
        if r.error != "" then acc.total else acc.total + r.count⟩)
    ⟨db, [], 0⟩

/-- An invalid record (missing employee id or punch time) leaves the store and
the count unchanged. -/
theorem syncStep_invalid (device : Device) (st : DB × Nat) (a : AdaptedAttendance)
    (h : validA a = false) : syncStep device st a = st := by
  simp [syncStep, h]

/-- A valid, fresh record whose employee exists is inserted and counted. -/
theorem syncStep_insert (device : Device) (db : DB) (c : Nat) (a : AdaptedAttendance)
    (hv : validA a = true)
    (hf : existsIn db.attendance (keyE a) (keyP a) device.ip_address = false)
    (hk : hasEmployee db (keyE a) = true) :
    syncStep device (db, c) a =
      ({ db with attendance := db.attendance ++ [toRow device a] }, c + 1) := by
  simp [syncStep, hv, hf, hk]

/-- A valid record whose dedup triple already exists is skipped. -/
theorem syncStep_skip_exists (device : Device) (db : DB) (c : Nat) (a : AdaptedAttendance)
    (hv : validA a = true)
    (hex : existsIn db.attendance (keyE a) (keyP a) device.ip_address = true) :
    syncStep device (db, c) a = (db, c) := by
  simp [syncStep, hv, hex]

/-- A valid, fresh record with no matching employee row is skipped. -/
theorem syncStep_skip_noemp (device : Device) (db : DB) (c : Nat) (a : AdaptedAttendance)
    (hv : validA a = true)
    (hf : existsIn db.attendance (keyE a) (keyP a) device.ip_address = false)
    (hk : hasEmployee db (keyE a) = false) :
    syncStep device (db, c) a = (db, c) := by
  simp [syncStep, hv, hf, hk]

/-- The dedup query distributes over an appended store. -/
theorem existsIn_append (xs ys : List AttendanceRecord) (eid pt : Value) (ip : String) :
    existsIn (xs ++ ys) eid pt ip = (existsIn xs eid pt ip || existsIn ys eid pt ip) := by
  simp [existsIn, List.any_append]

/-- Two records clash on the dedup key only when both components agree;
used for pairwise-distinct batches. -/
def distinctKeys (a b : AdaptedAttendance) : Prop :=
  validA a = true → validA b = true → keyE a = keyE b → keyP a ≠ keyP b

instance : DecidableRel distinctKeys := fun a b => by
  unfold distinctKeys
  infer_instance

/-- The dedup query against the one-row store freshly inserted for `a` fails
for any record with a different key. -/
theorem existsIn_singleton_ne (device : Device) (a b : AdaptedAttendance)
    (hd : keyE a = keyE b → keyP a ≠ keyP b) :
    existsIn [toRow device a] (keyE b) (keyP b) device.ip_address = false := by
  simp only [existsIn, toRow, List.any_cons, List.any_nil, Bool.or_false,
    decide_eq_false_iff_not]
  intro hcl
  exact hd hcl.1 hcl.2.1

/-- Full characterization of the per-record loop of
ZKAPIService.sync_attendance over a batch whose valid records reference
existing employees, are fresh with respect to the store, and have pairwise
distinct dedup keys: every valid record is inserted exactly once and counted,
invalid records are dropped, and the Employee and DeviceSyncLog tables are
untouched. -/
theorem foldl_syncStep_spec (device : Device) :
    ∀ (rs : List AdaptedAttendance) (db : DB) (c : Nat),
      (∀ a ∈ rs, validA a = true → hasEmployee db (keyE a) = true) →
      (∀ a ∈ rs, validA a = true →
        existsIn db.attendance (keyE a) (keyP a) device.ip_address = false) →
      rs.Pairwise distinctKeys →
      (rs.foldl (syncStep device) (db, c)).2 = c + rs.countP validA ∧
      (rs.foldl (syncStep device) (db, c)).1.attendance =
        db.attendance ++ (rs.filter validA).map (toRow device) ∧
      (rs.foldl (syncStep device) (db, c)).1.employees = db.employees ∧
      (rs.foldl (syncStep device) (db, c)).1.sync_logs = db.sync_logs := by
  intro rs
  induction rs with
  | nil => intro db c _ _ _; simp
  | cons a tl ih =>
    intro db c hk hf hp
    rw [List.pairwise_cons] at hp
    by_cases hv : validA a = true
    · have hf0 := hf a (List.mem_cons_self a tl) hv
      have hk0 := hk a (List.mem_cons_self a tl) hv
      have hstep := syncStep_insert device db c a hv hf0 hk0
      have hk1 : ∀ b ∈ tl, validA b = true →
          hasEmployee { db with attendance := db.attendance ++ [toRow device a] }
            (keyE b) = true := by
        intro b hb hvb
        exact hk b (List.mem_cons_of_mem a hb) hvb
      have hf1 : ∀ b ∈ tl, validA b = true →
          existsIn ({ db with attendance := db.attendance ++ [toRow device a] }).attendance
            (keyE b) (keyP b) device.ip_address = false := by
        intro b hb hvb
        show existsIn (db.attendance ++ [toRow device a]) (keyE b) (keyP b)
          device.ip_address = false
        rw [existsIn_append, hf b (List.mem_cons_of_mem a hb) hvb,
          existsIn_singleton_ne device a b (hp.1 b hb hv hvb)]
        rfl
      have ihc := ih { db with attendance := db.attendance ++ [toRow device a] }
        (c + 1) hk1 hf1 hp.2
      rw [List.foldl_cons, hstep]
      refine ⟨?_, ?_, ihc.2.2.1, ihc.2.2.2⟩
      · rw [ihc.1, List.countP_cons_of_pos _ _ hv]
        omega
      · rw [ihc.2.1, List.filter_cons_of_pos hv, List.map_cons]
        simp
    · have hv' : validA a = false := by
        cases h : validA a
        · rfl
        · exact absurd h hv
      have ihc := ih db c
        (fun b hb hvb => hk b (List.mem_cons_of_mem a hb) hvb)
        (fun b hb hvb => hf b (List.mem_cons_of_mem a hb) hvb) hp.2
      rw [List.foldl_cons, syncStep_invalid device (db, c) a hv']
      refine ⟨?_, ?_, ihc.2.2.1, ihc.2.2.2⟩
      · rw [ihc.1, List.countP_cons_of_neg _ _ (by simp [hv'])]
      · rw [ihc.2.1, List.filter_cons_of_neg (by simp [hv'])]

/-- Every row present after the per-record loop either was already stored or
references an employee that existed in the store when the loop started: the
loop never inserts a row for an unknown employee identifier. -/
theorem foldl_syncStep_employee_mem (device : Device) :
    ∀ (rs : List AdaptedAttendance) (db : DB) (c : Nat) (x : AttendanceRecord),
      x ∈ (rs.foldl (syncStep device) (db, c)).1.attendance →
      x ∈ db.attendance ∨ hasEmployee db x.employee_id = true := by
  intro rs
  induction rs with
  | nil => intro db c x hx; exact Or.inl hx
  | cons a tl ih =>
    intro db c x hx
    rw [List.foldl_cons] at hx
    by_cases hv : validA a = true
    · by_cases hex : existsIn db.attendance (keyE a) (keyP a) device.ip_address = true
      · rw [syncStep_skip_exists device db c a hv hex] at hx
        exact ih db c x hx
      · have hex' : existsIn db.attendance (keyE a) (keyP a) device.ip_address = false := by
          cases h : existsIn db.attendance (keyE a) (keyP a) device.ip_address
          · rfl
          · exact absurd h hex
        by_cases hk : hasEmployee db (keyE a) = true
        · rw [syncStep_insert device db c a hv hex' hk] at hx
          rcases ih _ _ x hx with hmem | hemp
          · rcases List.mem_append.mp hmem with hold | hnew
            · exact Or.inl hold
            · right
              rw [List.mem_singleton.mp hnew]
              exact hk
          · exact Or.inr hemp
        · have hk' : hasEmployee db (keyE a) = false := by
            cases h : hasEmployee db (keyE a)
            · rfl
            · exact absurd h hk
          rw [syncStep_skip_noemp device db c a hv hex' hk'] at hx
          exact ih db c x hx
    · have hv' : validA a = false := by
        cases h : validA a
        · rfl
        · exact absurd h hv
      rw [syncStep_invalid device (db, c) a hv'] at hx
      exact ih db c x hx

/-- Path lemma: ZKAPIService.sync_attendance when the transport call raises. -/
theorem api_sync_attendance_raise_eq
    (transport : Time → Time → FetchOutcome ApiData) (device : Device) (db : DB)
    (now : Time) (fa : Bool) (msg : String)
    (h1 : transport (windowStart device now fa) now = FetchOutcome.raise msg) :
    ZKAPIService.sync_attendance transport device db now fa =
      ⟨{ db with sync_logs := db.sync_logs ++
          [⟨device.id, "attendance", 0, false, msg, now, some now⟩] },
        device, 0, msg, ⟨device.id, "attendance", 0, false, msg, now, some now⟩⟩ := by
  simp only [ZKAPIService.sync_attendance, h1]

/-- Path lemma: ZKAPIService.sync_attendance when the fetch reports an error. -/
theorem api_sync_attendance_error_eq
    (transport : Time → Time → FetchOutcome ApiData) (device : Device) (db : DB)
    (now : Time) (fa : Bool) (req : ReqRes ApiData) (e : String)
    (h1 : transport (windowStart device now fa) now = FetchOutcome.ret req)
    (h2 : (ZKAPIService.get_attendance_records device req).2 = e)
    (h3 : e ≠ "") :
    ZKAPIService.sync_attendance transport device db now fa =
      ⟨{ db with sync_logs := db.sync_logs ++
          [⟨device.id, "attendance", 0, false, e, now, some now⟩] },
        device, 0, e, ⟨device.id, "attendance", 0, false, e, now, some now⟩⟩ := by
  simp only [ZKAPIService.sync_attendance, h1, h2]
  simp [h3]

/-- Path lemma: ZKAPIService.sync_attendance when the fetch succeeds; the
whole adapted response is folded through `syncStep`, then the cursor is set
to the window end and the success log is written. -/
theorem api_sync_attendance_success_eq
    (transport : Time → Time → FetchOutcome ApiData) (device : Device) (db : DB)
    (now : Time) (fa : Bool) (req : ReqRes ApiData) (rs : List AdaptedAttendance)
    (h1 : transport (windowStart device now fa) now = FetchOutcome.ret req)
    (h2 : ZKAPIService.get_attendance_records device req = (rs, "")) :
    ZKAPIService.sync_attendance transport device db now fa =
      ⟨{ (rs.foldl (syncStep device) (db, 0)).1 with
          sync_logs := (rs.foldl (syncStep device) (db, 0)).1.sync_logs ++
            [⟨device.id, "attendance", (rs.foldl (syncStep device) (db, 0)).2,
              true, "", now, some now⟩] },
        { device with last_sync := some now },
        (rs.foldl (syncStep device) (db, 0)).2, "",
        ⟨device.id, "attendance", (rs.foldl (syncStep device) (db, 0)).2,
          true, "", now, some now⟩⟩ := by
  simp only [ZKAPIService.sync_attendance, h1, h2]
  simp

/-- Path lemma: ZKAPIService.sync_employees when the transport call raises
(the `except Exception` branch, which does set `completed_at`). -/
theorem api_sync_employees_raise_eq
    (device : Device) (db : DB) (now : Time) (msg : String) :
    ZKAPIService.sync_employees (FetchOutcome.raise msg) device db now =
      ⟨{ db with sync_logs := db.sync_logs ++
          [⟨device.id, "employees", 0, false, msg, now, some now⟩] },
        device, 0, msg, ⟨device.id, "employees", 0, false, msg, now, some now⟩⟩ := by
  simp only [ZKAPIService.sync_employees]

/-- Path lemma: ZKAPIService.sync_employees when the fetch reports an error;
the failure log is saved without a completion timestamp. -/
theorem api_sync_employees_error_eq
    (device : Device) (db : DB) (now : Time) (req : ReqRes EmpApiData) (e : String)
    (h2 : (ZKAPIService.get_employees req).2 = e)
    (h3 : e ≠ "") :
    ZKAPIService.sync_employees (FetchOutcome.ret req) device db now =
      ⟨{ db with sync_logs := db.sync_logs ++
          [⟨device.id, "employees", 0, false, e, now, none⟩] },
        device, 0, e, ⟨device.id, "employees", 0, false, e, now, none⟩⟩ := by
  simp only [ZKAPIService.sync_employees, h2]
  simp [h3]

/-- Path lemma: ZKAPIService.sync_employees when the fetch succeeds. -/
theorem api_sync_employees_success_eq
    (device : Device) (db : DB) (now : Time) (req : ReqRes EmpApiData)
    (es : List AdaptedEmployee)
    (h2 : ZKAPIService.get_employees req = (es, "")) :
    ZKAPIService.sync_employees (FetchOutcome.ret req) device db now =
      ⟨{ (es.foldl empStep (db, 0)).1 with
          sync_logs := (es.foldl empStep (db, 0)).1.sync_logs ++
            [⟨device.id, "employees", (es.foldl empStep (db, 0)).2,
              true, "", now, some now⟩] },
        device, (es.foldl empStep (db, 0)).2, "",
        ⟨device.id, "employees", (es.foldl empStep (db, 0)).2,
          true, "", now, some now⟩⟩ := by
  simp only [ZKAPIService.sync_employees, h2]
  simp

/-- Path lemma: ZKDeviceService.sync_attendance when the DLL fetch reports an
error; no path of this function ever sets `completed_at`. -/
theorem dll_sync_attendance_error_eq
    (fetch : Time → Time → DllFetch) (device : Device) (db : DB)
    (now : Time) (e : String)
    (h2 : (ZKDeviceService.get_attendance_records
            (fetch (device.last_sync.getD (now - sevenDays)) now)).2 = e)
    (h3 : e ≠ "") :
    ZKDeviceService.sync_attendance fetch device db now =
      ⟨{ db with sync_logs := db.sync_logs ++
          [⟨device.id, "attendance", 0, false, e, now, none⟩] },
        device, 0, e, ⟨device.id, "attendance", 0, false, e, now, none⟩⟩ := by
  simp only [ZKDeviceService.sync_attendance, h2]
  simp [h3]

/-- Path lemma: ZKDeviceService.sync_attendance when the DLL fetch succeeds. -/
theorem dll_sync_attendance_success_eq
    (fetch : Time → Time → DllFetch) (device : Device) (db : DB)
    (now : Time) (rs : List DllRecord)
    (h2 : ZKDeviceService.get_attendance_records
            (fetch (device.last_sync.getD (now - sevenDays)) now) = (rs, "")) :
    ZKDeviceService.sync_attendance fetch device db now =
      ⟨{ (rs.foldl (dllStep device) (db, 0)).1 with
          sync_logs := (rs.foldl (dllStep device) (db, 0)).1.sync_logs ++
            [⟨device.id, "attendance", (rs.foldl (dllStep device) (db, 0)).2,
              true, "", now, none⟩] },
        { device with last_sync := some now },
        (rs.foldl (dllStep device) (db, 0)).2, "",
        ⟨device.id, "attendance", (rs.foldl (dllStep device) (db, 0)).2,
          true, "", now, none⟩⟩ := by
  simp only [ZKDeviceService.sync_attendance, h2]
  simp

/-- Concrete device fixture used by witnesses. -/
def dev0 : Device := ⟨1, "10.0.0.1", 4370, true, some 50⟩

/-- Concrete store fixture used by witnesses: employees 1, 2 and 3 exist, no
attendance rows, no logs. -/
def db0 : DB := ⟨[Value.str "1", Value.str "2", Value.str "3"], [], []⟩

/-- The vendor-camel-case raw record of the field-alias test. -/
def rawCamel : RawAttendance :=
  { RawAttendance.empty with
    EmployeeID := some (Value.str "42")
    PunchTime := some (Value.str "2024-01-01T08:00:00") }

/-- The snake-case raw record of the field-alias test. -/
def rawSnake : RawAttendance :=
  { RawAttendance.empty with
    employee_id := some (Value.str "42")
    punch_time := some (Value.str "2024-01-01T08:00:00") }

/-- C7: the record adapter resolves every ambiguous field name through a fixed
priority list of aliases, first non-empty match winning, so the camel-case raw
record {EmployeeID: "42", PunchTime: "2024-01-01T08:00:00"} and the snake-case
raw record {employee_id: "42", punch_time: "2024-01-01T08:00:00"} adapt to the
identical canonical record, for every device. -/
theorem C7_alias_resolution_deterministic :
    ∀ device : Device,
      adapt_attendance device rawCamel = adapt_attendance device rawSnake := by
  intro device
  rfl

/-- A raw record carrying falsy values in the higher-priority alias fields:
VerificationMode = 0 alongside verify_type = 5, and Status = 0 alongside
punch_state = 7. -/
def rawFalsy : RawAttendance :=
  { RawAttendance.empty with
    EmployeeID := some (Value.str "7")
    PunchTime := some (Value.str "2024-01-01T08:00:00")
    VerificationMode := some (Value.int 0)
    verify_type := some (Value.int 5)
    Status := some (Value.int 0)
    punch_state := some (Value.int 7) }

/-- C9: a falsy value (here 0) in an earlier-priority alias field is treated
as absent by the adapter's `or` chains: with VerificationMode = 0 and
verify_type = 5 the adapted VerificationMode is 5, not 0, and with Status = 0
and punch_state = 7 the adapted Status is 7, for every device. -/
theorem C9_falsy_alias_falls_through :
    ∀ device : Device,
      (adapt_attendance device rawFalsy).VerificationMode = Value.int 5 ∧
      (adapt_attendance device rawFalsy).Status = Value.int 7 := by
  intro device
  exact ⟨rfl, rfl⟩

/-- C1: for every device, if the transport fetch during an attendance sync
pass returns an error (a non-empty error string), then sync_attendance
returns 0 synced records together with that error, records exactly one
DeviceSyncLog row with success = false, and leaves the device row — in
particular its last_sync cursor — exactly as it was. Stated for both
ZKAPIService.sync_attendance and ZKDeviceService.sync_attendance. -/
theorem C1_transport_error_freezes_cursor
    (transport : Time → Time → FetchOutcome ApiData) (device : Device) (db : DB)
    (now : Time) (fa : Bool) (req : ReqRes ApiData) (e : String)
    (dfetch : Time → Time → DllFetch) (ddevice : Device) (ddb : DB)
    (dnow : Time) (e2 : String)
    (h1 : transport (windowStart device now fa) now = FetchOutcome.ret req)
    (h2 : (ZKAPIService.get_attendance_records device req).2 = e)
    (h3 : e ≠ "")
    (h4 : (ZKDeviceService.get_attendance_records
            (dfetch (ddevice.last_sync.getD (dnow - sevenDays)) dnow)).2 = e2)
    (h5 : e2 ≠ "") :
    (ZKAPIService.sync_attendance transport device db now fa).count = 0 ∧
    (ZKAPIService.sync_attendance transport device db now fa).error = e ∧
    (ZKAPIService.sync_attendance transport device db now fa).log.success = false ∧
    (ZKAPIService.sync_attendance transport device db now fa).db.sync_logs =
      db.sync_logs ++ [(ZKAPIService.sync_attendance transport device db now fa).log] ∧
    (ZKAPIService.sync_attendance transport device db now fa).device = device ∧
    (ZKAPIService.sync_attendance transport device db now fa).db.attendance =
      db.attendance ∧
    (ZKDeviceService.sync_attendance dfetch ddevice ddb dnow).count = 0 ∧
    (ZKDeviceService.sync_attendance dfetch ddevice ddb dnow).error = e2 ∧
    (ZKDeviceService.sync_attendance dfetch ddevice ddb dnow).log.success = false ∧
    (ZKDeviceService.sync_attendance dfetch ddevice ddb dnow).db.sync_logs =
      ddb.sync_logs ++ [(ZKDeviceService.sync_attendance dfetch ddevice ddb dnow).log] ∧
    (ZKDeviceService.sync_attendance dfetch ddevice ddb dnow).device = ddevice := by
  rw [api_sync_attendance_error_eq transport device db now fa req e h1 h2 h3,
    dll_sync_attendance_error_eq dfetch ddevice ddb dnow e2 h4 h5]
  exact ⟨rfl, rfl, rfl, rfl, rfl, rfl, rfl, rfl, rfl, rfl, rfl⟩

/-- Witness for C1 at a concrete failing transport: the HTTP request fails
with "connection refused" and the DLL bridge is not loaded. -/
theorem C1_transport_error_freezes_cursor_witness :
    (ZKAPIService.sync_attendance
      (fun _ _ => FetchOutcome.ret (ReqRes.fail "connection refused"))
      dev0 db0 100 false).count = 0 ∧
    (ZKAPIService.sync_attendance
      (fun _ _ => FetchOutcome.ret (ReqRes.fail "connection refused"))
      dev0 db0 100 false).error = "connection refused" ∧
    (ZKAPIService.sync_attendance
      (fun _ _ => FetchOutcome.ret (ReqRes.fail "connection refused"))
      dev0 db0 100 false).log.success = false ∧
    (ZKAPIService.sync_attendance
      (fun _ _ => FetchOutcome.ret (ReqRes.fail "connection refused"))
      dev0 db0 100 false).db.sync_logs =
      db0.sync_logs ++ [(ZKAPIService.sync_attendance
        (fun _ _ => FetchOutcome.ret (ReqRes.fail "connection refused"))
        dev0 db0 100 false).log] ∧
    (ZKAPIService.sync_attendance
      (fun _ _ => FetchOutcome.ret (ReqRes.fail "connection refused"))
      dev0 db0 100 false).device = dev0 ∧
    (ZKAPIService.sync_attendance
      (fun _ _ => FetchOutcome.ret (ReqRes.fail "connection refused"))
      dev0 db0 100 false).db.attendance = db0.attendance ∧
    (ZKDeviceService.sync_attendance (fun _ _ => DllFetch.noDll) dev0 db0 100).count = 0 ∧
    (ZKDeviceService.sync_attendance (fun _ _ => DllFetch.noDll) dev0 db0 100).error =
      "DLL not loaded" ∧
    (ZKDeviceService.sync_attendance (fun _ _ => DllFetch.noDll) dev0 db0 100).log.success =
      false ∧
    (ZKDeviceService.sync_attendance (fun _ _ => DllFetch.noDll) dev0 db0 100).db.sync_logs =
      db0.sync_logs ++ [(ZKDeviceService.sync_attendance
        (fun _ _ => DllFetch.noDll) dev0 db0 100).log] ∧
    (ZKDeviceService.sync_attendance (fun _ _ => DllFetch.noDll) dev0 db0 100).device =
      dev0 :=
  C1_transport_error_freezes_cursor
    (fun _ _ => FetchOutcome.ret (ReqRes.fail "connection refused"))
    dev0 db0 100 false (ReqRes.fail "connection refused") "connection refused"
    (fun _ _ => DllFetch.noDll) dev0 db0 100 "DLL not loaded"
    rfl rfl (by decide) rfl (by decide)

/-- C10: sync_attendance and sync_employees are total at their public
boundary. In the embedding both are total functions returning a
(count, error) pair for every transport outcome — including a raised
exception, modelled by `FetchOutcome.raise` and absorbed by the
`except Exception` branch — and whenever the returned error message is
non-empty the returned count is 0. -/
theorem C10_total_boundary :
    ∀ (transport : Time → Time → FetchOutcome ApiData) (device : Device)
      (db : DB) (now : Time) (fa : Bool)
      (etransport : FetchOutcome EmpApiData) (edevice : Device) (edb : DB)
      (enow : Time),
      ((ZKAPIService.sync_attendance transport device db now fa).error ≠ "" →
        (ZKAPIService.sync_attendance transport device db now fa).count = 0) ∧
      ((ZKAPIService.sync_employees etransport edevice edb enow).error ≠ "" →
        (ZKAPIService.sync_employees etransport edevice edb enow).count = 0) := by
  intro transport device db now fa etransport edevice edb enow
  refine ⟨?_, ?_⟩
  · cases htr : transport (windowStart device now fa) now with
    | raise msg =>
      rw [api_sync_attendance_raise_eq transport device db now fa msg htr]
      intro _
      rfl
    | ret req =>
      rcases hg : ZKAPIService.get_attendance_records device req with ⟨rs, e⟩
      by_cases he : e = ""
      · subst he
        rw [api_sync_attendance_success_eq transport device db now fa req rs htr hg]
        intro h
        exact absurd rfl h
      · rw [api_sync_attendance_error_eq transport device db now fa req e htr
          (by rw [hg]) he]
        intro _
        rfl
  · cases etransport with
    | raise msg =>
      rw [api_sync_employees_raise_eq edevice edb enow msg]
      intro _
      rfl
    | ret req =>
      rcases hg : ZKAPIService.get_employees req with ⟨es, e⟩
      by_cases he : e = ""
      · subst he
        rw [api_sync_employees_success_eq edevice edb enow req es hg]
        intro h
        exact absurd rfl h
      · rw [api_sync_employees_error_eq edevice edb enow req e (by rw [hg]) he]
        intro _
        rfl

/-- Witness for C10 at a concrete raised exception in each sync function. -/
theorem C10_total_boundary_witness :
    (ZKAPIService.sync_attendance (fun _ _ => FetchOutcome.raise "boom")
      dev0 db0 100 false).count = 0 ∧
    (ZKAPIService.sync_employees (FetchOutcome.raise "boom")
      dev0 db0 100).count = 0 :=
  ⟨(C10_total_boundary (fun _ _ => FetchOutcome.raise "boom") dev0 db0 100 false
      (FetchOutcome.raise "boom") dev0 db0 100).1 (by decide),
    (C10_total_boundary (fun _ _ => FetchOutcome.raise "boom") dev0 db0 100 false
      (FetchOutcome.raise "boom") dev0 db0 100).2 (by decide)⟩

/-- The per-record attendance step never writes to the DeviceSyncLog table. -/
theorem syncStep_logs (device : Device) (st : DB × Nat) (a : AdaptedAttendance) :
    ((syncStep device st a).1).sync_logs = st.1.sync_logs := by
  unfold syncStep
  split
  · split
    · rfl
    · split
      · rfl
      · rfl
  · rfl

/-- The per-record attendance loop never writes to the DeviceSyncLog table. -/
theorem foldl_syncStep_logs (device : Device) :
    ∀ (rs : List AdaptedAttendance) (st : DB × Nat),
      ((rs.foldl (syncStep device) st).1).sync_logs = st.1.sync_logs := by
  intro rs
  induction rs with
  | nil => intro st; rfl
  | cons a tl ih =>
    intro st
    rw [List.foldl_cons, ih, syncStep_logs]

/-- The per-record employee step never writes to the DeviceSyncLog table. -/
theorem empStep_logs (st : DB × Nat) (e : AdaptedEmployee) :
    ((empStep st e).1).sync_logs = st.1.sync_logs := by
  unfold empStep
  split
  · rfl
  · split
    · rfl
    · rfl

/-- The per-record employee loop never writes to the DeviceSyncLog table. -/
theorem foldl_empStep_logs :
    ∀ (es : List AdaptedEmployee) (st : DB × Nat),
      ((es.foldl empStep st).1).sync_logs = st.1.sync_logs := by
  intro es
  induction es with
  | nil => intro st; rfl
  | cons e tl ih =>
    intro st
    rw [List.foldl_cons, ih, empStep_logs]

/-- The DLL per-record step never writes to the DeviceSyncLog table. -/
theorem dllStep_logs (device : Device) (st : DB × Nat) (a : DllRecord) :
    ((dllStep device st a).1).sync_logs = st.1.sync_logs := by
  simp only [dllStep]
  split
  · split
    · split
      · rfl
      · rfl
    · rfl
  · rfl

/-- The DLL per-record loop never writes to the DeviceSyncLog table. -/
theorem foldl_dllStep_logs (device : Device) :
    ∀ (rs : List DllRecord) (st : DB × Nat),
      ((rs.foldl (dllStep device) st).1).sync_logs = st.1.sync_logs := by
  intro rs
  induction rs with
  | nil => intro st; rfl
  | cons a tl ih =>
    intro st
    rw [List.foldl_cons, ih, dllStep_logs]

/-- Counterexample for C8 as stated: a ZKAPIService.sync_employees attempt
whose transport reports an error finalizes its one DeviceSyncLog row WITHOUT a
completion timestamp (api_services.py lines 178-182 save the log without
setting completed_at), so the row does not carry both start and completion
timestamps. -/
theorem C8_counterexample_no_completion_timestamp :
    (ZKAPIService.sync_employees (FetchOutcome.ret (ReqRes.fail "connection refused"))
      dev0 db0 7).log.completed_at = none ∧
    (ZKAPIService.sync_employees (FetchOutcome.ret (ReqRes.fail "connection refused"))
      dev0 db0 7).db.sync_logs =
      [⟨dev0.id, "employees", 0, false, "connection refused", 7, none⟩] ∧
    (ZKDeviceService.sync_attendance (fun _ _ => DllFetch.ok ⟨true, some [], none⟩)
      dev0 db0 7).log.completed_at = none := by
  exact ⟨rfl, rfl, rfl⟩

/-- C8 (amended): for every sync attempt — attendance or employees, over any
transport outcome — exactly one DeviceSyncLog row is appended when the run for
that device terminates, carrying the sync type, the records-synced count, the
error message matching the returned error, and the start timestamp; the
completion timestamp is set on every ZKAPIService.sync_attendance path and on
ZKAPIService.sync_employees' success and exception paths, but is left unset on
sync_employees' transport-error path and on every
ZKDeviceService.sync_attendance path. -/
theorem C8_amended_one_log_per_attempt :
    ∀ (transport : Time → Time → FetchOutcome ApiData) (device : Device) (db : DB)
      (now : Time) (fa : Bool)
      (etransport : FetchOutcome EmpApiData) (edevice : Device) (edb : DB)
      (enow : Time)
      (dfetch : Time → Time → DllFetch) (ddevice : Device) (ddb : DB) (dnow : Time),
      ((ZKAPIService.sync_attendance transport device db now fa).db.sync_logs =
          db.sync_logs ++ [(ZKAPIService.sync_attendance transport device db now fa).log] ∧
        (ZKAPIService.sync_attendance transport device db now fa).log.sync_type =
          "attendance" ∧
        (ZKAPIService.sync_attendance transport device db now fa).log.records_synced =
          (ZKAPIService.sync_attendance transport device db now fa).count ∧
        (ZKAPIService.sync_attendance transport device db now fa).log.error_message =
          (ZKAPIService.sync_attendance transport device db now fa).error ∧
        (ZKAPIService.sync_attendance transport device db now fa).log.started_at = now ∧
        (ZKAPIService.sync_attendance transport device db now fa).log.completed_at =
          some now) ∧
      ((ZKAPIService.sync_employees etransport edevice edb enow).db.sync_logs =
          edb.sync_logs ++ [(ZKAPIService.sync_employees etransport edevice edb enow).log] ∧
        (ZKAPIService.sync_employees etransport edevice edb enow).log.sync_type =
          "employees" ∧
        (ZKAPIService.sync_employees etransport edevice edb enow).log.records_synced =
          (ZKAPIService.sync_employees etransport edevice edb enow).count ∧
        (ZKAPIService.sync_employees etransport edevice edb enow).log.error_message =
          (ZKAPIService.sync_employees etransport edevice edb enow).error ∧
        (ZKAPIService.sync_employees etransport edevice edb enow).log.started_at = enow ∧
        (ZKAPIService.sync_employees etransport edevice edb enow).log.completed_at =
          (match etransport with
            | FetchOutcome.raise _ => some enow
            | FetchOutcome.ret req =>
              if (ZKAPIService.get_employees req).2 = "" then some enow else none)) ∧
      ((ZKDeviceService.sync_attendance dfetch ddevice ddb dnow).db.sync_logs =
          ddb.sync_logs ++ [(ZKDeviceService.sync_attendance dfetch ddevice ddb dnow).log] ∧
        (ZKDeviceService.sync_attendance dfetch ddevice ddb dnow).log.sync_type =
          "attendance" ∧
        (ZKDeviceService.sync_attendance dfetch ddevice ddb dnow).log.records_synced =
          (ZKDeviceService.sync_attendance dfetch ddevice ddb dnow).count ∧
        (ZKDeviceService.sync_attendance dfetch ddevice ddb dnow).log.error_message =
          (ZKDeviceService.sync_attendance dfetch ddevice ddb dnow).error ∧
        (ZKDeviceService.sync_attendance dfetch ddevice ddb dnow).log.started_at = dnow ∧
        (ZKDeviceService.sync_attendance dfetch ddevice ddb dnow).log.completed_at =
          none) := by
  intro transport device db now fa etransport edevice edb enow dfetch ddevice ddb dnow
  refine ⟨?_, ?_, ?_⟩
  · cases htr : transport (windowStart device now fa) now with
    | raise msg =>
      rw [api_sync_attendance_raise_eq transport device db now fa msg htr]
      exact ⟨rfl, rfl, rfl, rfl, rfl, rfl⟩
    | ret req =>
      rcases hg : ZKAPIService.get_attendance_records device req with ⟨rs, e⟩
      by_cases he : e = ""
      · subst he
        rw [api_sync_attendance_success_eq transport device db now fa req rs htr hg]
        refine ⟨?_, rfl, rfl, rfl, rfl, rfl⟩
        simp [foldl_syncStep_logs]
      · rw [api_sync_attendance_error_eq transport device db now fa req e htr
          (by rw [hg]) he]
        exact ⟨rfl, rfl, rfl, rfl, rfl, rfl⟩
  · cases etransport with
    | raise msg =>
      rw [api_sync_employees_raise_eq edevice edb enow msg]
      exact ⟨rfl, rfl, rfl, rfl, rfl, rfl⟩
    | ret req =>
      rcases hg : ZKAPIService.get_employees req with ⟨es, e⟩
      by_cases he : e = ""
      · subst he
        rw [api_sync_employees_success_eq edevice edb enow req es hg]
        refine ⟨?_, rfl, rfl, rfl, rfl, ?_⟩
        · simp [foldl_empStep_logs]
        · simp [hg]
      · rw [api_sync_employees_error_eq edevice edb enow req e (by rw [hg]) he]
        refine ⟨rfl, rfl, rfl, rfl, rfl, ?_⟩
        simp [hg, he]
  · rcases hg : ZKDeviceService.get_attendance_records
      (dfetch (ddevice.last_sync.getD (dnow - sevenDays)) dnow) with ⟨rs, e⟩
    by_cases he : e = ""
    · subst he
      rw [dll_sync_attendance_success_eq dfetch ddevice ddb dnow rs hg]
      refine ⟨?_, rfl, rfl, rfl, rfl, rfl⟩
      simp [foldl_dllStep_logs]
    · rw [dll_sync_attendance_error_eq dfetch ddevice ddb dnow e (by rw [hg]) he]
      exact ⟨rfl, rfl, rfl, rfl, rfl, rfl⟩

/-- C2: for every device with a cursor, an attendance sync pass only ever
assigns the pass's window end (`end_time = timezone.now()`) to last_sync, a
successful pass sets exactly that value and only after the entire fetched
response has been folded through the per-record loop, and — under the
monotone-clock hypothesis that the stored cursor is not in the future — the
cursor never decreases. Stated for both ZKAPIService.sync_attendance and
ZKDeviceService.sync_attendance. -/
theorem C2_cursor_monotone_window_end
    (transport : Time → Time → FetchOutcome ApiData) (device : Device) (db : DB)
    (now : Time) (fa : Bool)
    (dfetch : Time → Time → DllFetch) (ddevice : Device) (ddb : DB) (dnow : Time)
    (hmono : ∀ t, device.last_sync = some t → t ≤ now)
    (hdmono : ∀ t, ddevice.last_sync = some t → t ≤ dnow) :
    ((ZKAPIService.sync_attendance transport device db now fa).device.last_sync =
        device.last_sync ∨
      (ZKAPIService.sync_attendance transport device db now fa).device.last_sync =
        some now) ∧
    (∀ t t2, device.last_sync = some t →
      (ZKAPIService.sync_attendance transport device db now fa).device.last_sync =
        some t2 → t ≤ t2) ∧
    (∀ (req : ReqRes ApiData) (rs : List AdaptedAttendance),
      transport (windowStart device now fa) now = FetchOutcome.ret req →
      ZKAPIService.get_attendance_records device req = (rs, "") →
      (ZKAPIService.sync_attendance transport device db now fa).device.last_sync =
        some now ∧
      (ZKAPIService.sync_attendance transport device db now fa).db.attendance =
        ((rs.foldl (syncStep device) (db, 0)).1).attendance) ∧
    ((ZKDeviceService.sync_attendance dfetch ddevice ddb dnow).device.last_sync =
        ddevice.last_sync ∨
      (ZKDeviceService.sync_attendance dfetch ddevice ddb dnow).device.last_sync =
        some dnow) ∧
    (∀ t t2, ddevice.last_sync = some t →
      (ZKDeviceService.sync_attendance dfetch ddevice ddb dnow).device.last_sync =
        some t2 → t ≤ t2) ∧
    (∀ (rs : List DllRecord),
      ZKDeviceService.get_attendance_records
        (dfetch (ddevice.last_sync.getD (dnow - sevenDays)) dnow) = (rs, "") →
      (ZKDeviceService.sync_attendance dfetch ddevice ddb dnow).device.last_sync =
        some dnow ∧
      (ZKDeviceService.sync_attendance dfetch ddevice ddb dnow).db.attendance =
        ((rs.foldl (dllStep ddevice) (ddb, 0)).1).attendance) := by
  have hacase :
      (ZKAPIService.sync_attendance transport device db now fa).device.last_sync =
        device.last_sync ∨
      (ZKAPIService.sync_attendance transport device db now fa).device.last_sync =
        some now := by
    cases htr : transport (windowStart device now fa) now with
    | raise msg =>
      rw [api_sync_attendance_raise_eq transport device db now fa msg htr]
      exact Or.inl rfl
    | ret req =>
      rcases hg : ZKAPIService.get_attendance_records device req with ⟨rs, e⟩
      by_cases he : e = ""
      · subst he
        rw [api_sync_attendance_success_eq transport device db now fa req rs htr hg]
        exact Or.inr rfl
      · rw [api_sync_attendance_error_eq transport device db now fa req e htr
          (by rw [hg]) he]
        exact Or.inl rfl
  have hdcase :
      (ZKDeviceService.sync_attendance dfetch ddevice ddb dnow).device.last_sync =
        ddevice.last_sync ∨
      (ZKDeviceService.sync_attendance dfetch ddevice ddb dnow).device.last_sync =
        some dnow := by
    rcases hg : ZKDeviceService.get_attendance_records
        (dfetch (ddevice.last_sync.getD (dnow - sevenDays)) dnow) with ⟨rs, e⟩
    by_cases he : e = ""
    · subst he
      rw [dll_sync_attendance_success_eq dfetch ddevice ddb dnow rs hg]
      exact Or.inr rfl
    · rw [dll_sync_attendance_error_eq dfetch ddevice ddb dnow e (by rw [hg]) he]
      exact Or.inl rfl
  refine ⟨hacase, ?_, ?_, hdcase, ?_, ?_⟩
  · intro t t2 ht ht2
    rcases hacase with h | h
    · rw [h, ht] at ht2
      injection ht2 with h3
      exact le_of_eq h3
    · rw [h] at ht2
      injection ht2 with h3
      exact h3 ▸ hmono t ht
  · intro req rs hret hok
    rw [api_sync_attendance_success_eq transport device db now fa req rs hret hok]
    exact ⟨rfl, rfl⟩
  · intro t t2 ht ht2
    rcases hdcase with h | h
    · rw [h, ht] at ht2
      injection ht2 with h3
      exact le_of_eq h3
    · rw [h] at ht2
      injection ht2 with h3
      exact h3 ▸ hdmono t ht
  · intro rs hok
    rw [dll_sync_attendance_success_eq dfetch ddevice ddb dnow rs hok]
    exact ⟨rfl, rfl⟩

/-- Witness for C2 at a concrete successful empty-window fetch on a device
whose cursor (50) is behind the clock (100): both engines set the cursor to
the window end. -/
theorem C2_cursor_monotone_window_end_witness :
    ((ZKAPIService.sync_attendance
        (fun _ _ => FetchOutcome.ret (ReqRes.ok ⟨true, none, some [], none, none, none⟩))
        dev0 db0 100 false).device.last_sync = some 100 ∧
      (ZKAPIService.sync_attendance
        (fun _ _ => FetchOutcome.ret (ReqRes.ok ⟨true, none, some [], none, none, none⟩))
        dev0 db0 100 false).db.attendance =
        ((([] : List AdaptedAttendance).foldl (syncStep dev0) (db0, 0)).1).attendance) ∧
    ((ZKDeviceService.sync_attendance (fun _ _ => DllFetch.ok ⟨true, some [], none⟩)
        dev0 db0 100).device.last_sync = some 100 ∧
      (ZKDeviceService.sync_attendance (fun _ _ => DllFetch.ok ⟨true, some [], none⟩)
        dev0 db0 100).db.attendance =
        ((([] : List DllRecord).foldl (dllStep dev0) (db0, 0)).1).attendance) :=
  ⟨(C2_cursor_monotone_window_end
      (fun _ _ => FetchOutcome.ret (ReqRes.ok ⟨true, none, some [], none, none, none⟩))
      dev0 db0 100 false
      (fun _ _ => DllFetch.ok ⟨true, some [], none⟩) dev0 db0 100
      (fun t ht => by simp only [dev0, Option.some.injEq] at ht; subst ht; decide)
      (fun t ht => by simp only [dev0, Option.some.injEq] at ht; subst ht; decide)).2.2.1
      (ReqRes.ok ⟨true, none, some [], none, none, none⟩) [] rfl rfl,
    (C2_cursor_monotone_window_end
      (fun _ _ => FetchOutcome.ret (ReqRes.ok ⟨true, none, some [], none, none, none⟩))
      dev0 db0 100 false
      (fun _ _ => DllFetch.ok ⟨true, some [], none⟩) dev0 db0 100
      (fun t ht => by simp only [dev0, Option.some.injEq] at ht; subst ht; decide)
      (fun t ht => by simp only [dev0, Option.some.injEq] at ht; subst ht; decide)).2.2.2.2.2 [] rfl⟩

/-- C6: for every fetched batch, any raw attendance record whose employee
identifier has no matching Employee row is dropped (`Employee.DoesNotExist`
is caught and the loop continues): if no stored row references the unknown
identifier beforehand, none does afterwards, and the pass still terminates
with an empty error, a success log, and the cursor advanced to the window
end. -/
theorem C6_unknown_employee_dropped
    (transport : Time → Time → FetchOutcome ApiData) (device : Device) (db : DB)
    (now : Time) (fa : Bool) (req : ReqRes ApiData) (rs : List AdaptedAttendance)
    (eid : Value)
    (h1 : transport (windowStart device now fa) now = FetchOutcome.ret req)
    (h2 : ZKAPIService.get_attendance_records device req = (rs, ""))
    (hno : hasEmployee db eid = false)
    (hnone : ∀ x ∈ db.attendance, x.employee_id ≠ eid) :
    (ZKAPIService.sync_attendance transport device db now fa).error = "" ∧
    (ZKAPIService.sync_attendance transport device db now fa).log.success = true ∧
    (ZKAPIService.sync_attendance transport device db now fa).device.last_sync =
      some now ∧
    (∀ x ∈ (ZKAPIService.sync_attendance transport device db now fa).db.attendance,
      x.employee_id ≠ eid) := by
  rw [api_sync_attendance_success_eq transport device db now fa req rs h1 h2]
  refine ⟨rfl, rfl, rfl, ?_⟩
  intro x hx
  have hx2 : x ∈ ((rs.foldl (syncStep device) (db, 0)).1).attendance := hx
  rcases foldl_syncStep_employee_mem device rs db 0 x hx2 with hmem | hemp
  · exact hnone x hmem
  · intro heq
    rw [heq] at hemp
    have hcontra := hno
    rw [hemp] at hcontra
    exact Bool.noConfusion hcontra

/-- A raw record referencing the unknown employee "999". -/
def raw999 : RawAttendance :=
  { RawAttendance.empty with
    EmployeeID := some (Value.str "999")
    PunchTime := some (Value.str "2024-01-02T09:00:00") }

/-- Witness for C6: a fetched batch holding one record for employee "999",
who has no Employee row in the store. -/
theorem C6_unknown_employee_dropped_witness :
    (ZKAPIService.sync_attendance
      (fun _ _ => FetchOutcome.ret (ReqRes.ok ⟨true, none, some [raw999], none, none, none⟩))
      dev0 db0 100 false).error = "" ∧
    (ZKAPIService.sync_attendance
      (fun _ _ => FetchOutcome.ret (ReqRes.ok ⟨true, none, some [raw999], none, none, none⟩))
      dev0 db0 100 false).log.success = true ∧
    (ZKAPIService.sync_attendance
      (fun _ _ => FetchOutcome.ret (ReqRes.ok ⟨true, none, some [raw999], none, none, none⟩))
      dev0 db0 100 false).device.last_sync = some 100 ∧
    (∀ x ∈ (ZKAPIService.sync_attendance
      (fun _ _ => FetchOutcome.ret (ReqRes.ok ⟨true, none, some [raw999], none, none, none⟩))
      dev0 db0 100 false).db.attendance,
      x.employee_id ≠ Value.str "999") :=
  C6_unknown_employee_dropped
    (fun _ _ => FetchOutcome.ret (ReqRes.ok ⟨true, none, some [raw999], none, none, none⟩))
    dev0 db0 100 false
    (ReqRes.ok ⟨true, none, some [raw999], none, none, none⟩)
    ([raw999].map (adapt_attendance dev0)) (Value.str "999")
    rfl rfl (by decide) (by decide)

/-- C5: a fetched batch of 10 records whose fifth is malformed (missing punch
time, hence failing the `if employee_id and punch_time` validation) while the
other nine are valid, reference existing employees, are fresh, and carry
pairwise distinct dedup keys, yields 9 persisted records, a returned synced
count of 9, an empty error, and a pass still marked successful. -/
theorem C5_partial_batch_resilience
    (transport : Time → Time → FetchOutcome ApiData) (device : Device) (db : DB)
    (now : Time) (fa : Bool) (req : ReqRes ApiData)
    (xs ys : List AdaptedAttendance) (b : AdaptedAttendance)
    (h1 : transport (windowStart device now fa) now = FetchOutcome.ret req)
    (h2 : ZKAPIService.get_attendance_records device req = (xs ++ b :: ys, ""))
    (hlen4 : xs.length = 4) (hlen5 : ys.length = 5)
    (hbad : validA b = false)
    (hgoodx : ∀ a ∈ xs, validA a = true)
    (hgoody : ∀ a ∈ ys, validA a = true)
    (hknown : ∀ a ∈ xs ++ b :: ys, validA a = true → hasEmployee db (keyE a) = true)
    (hfresh : ∀ a ∈ xs ++ b :: ys, validA a = true →
      existsIn db.attendance (keyE a) (keyP a) device.ip_address = false)
    (hdist : (xs ++ b :: ys).Pairwise distinctKeys) :
    (ZKAPIService.sync_attendance transport device db now fa).count = 9 ∧
    (ZKAPIService.sync_attendance transport device db now fa).error = "" ∧
    (ZKAPIService.sync_attendance transport device db now fa).log.success = true ∧
    (ZKAPIService.sync_attendance transport device db now fa).db.attendance.length =
      db.attendance.length + 9 := by
  have hspec := foldl_syncStep_spec device (xs ++ b :: ys) db 0 hknown hfresh hdist
  have hcount : (xs ++ b :: ys).countP validA = 9 := by
    rw [List.countP_append, List.countP_cons_of_neg validA ys (by simp [hbad]),
      List.countP_eq_length.mpr hgoodx, List.countP_eq_length.mpr hgoody,
      hlen4, hlen5]
  rw [api_sync_attendance_success_eq transport device db now fa req (xs ++ b :: ys) h1 h2]
  refine ⟨?_, rfl, rfl, ?_⟩
  · show ((xs ++ b :: ys).foldl (syncStep device) (db, 0)).2 = 9
    rw [hspec.1, hcount]
  · show (((xs ++ b :: ys).foldl (syncStep device) (db, 0)).1).attendance.length =
      db.attendance.length + 9
    rw [hspec.2.1, List.length_append, List.length_map,
      ← List.countP_eq_length_filter, hcount]

/-- A well-formed raw punch for employee "1" at the given time string. -/
def rawT (s : String) : RawAttendance :=
  { RawAttendance.empty with
    EmployeeID := some (Value.str "1")
    PunchTime := some (Value.str s) }

/-- A malformed raw punch: employee id present, punch time missing. -/
def rawBad : RawAttendance :=
  { RawAttendance.empty with EmployeeID := some (Value.str "1") }

/-- The concrete ten-record batch of the partial-batch test: record #5 is
malformed, the rest are valid with distinct punch times. -/
def batch10 : List RawAttendance :=
  [rawT "t1", rawT "t2", rawT "t3", rawT "t4", rawBad,
    rawT "t5", rawT "t6", rawT "t7", rawT "t8", rawT "t9"]

/-- Witness for C5 at the concrete ten-record batch. -/
theorem C5_partial_batch_resilience_witness :
    (ZKAPIService.sync_attendance
      (fun _ _ => FetchOutcome.ret (ReqRes.ok ⟨true, none, some batch10, none, none, none⟩))
      dev0 db0 100 false).count = 9 ∧
    (ZKAPIService.sync_attendance
      (fun _ _ => FetchOutcome.ret (ReqRes.ok ⟨true, none, some batch10, none, none, none⟩))
      dev0 db0 100 false).error = "" ∧
    (ZKAPIService.sync_attendance
      (fun _ _ => FetchOutcome.ret (ReqRes.ok ⟨true, none, some batch10, none, none, none⟩))
      dev0 db0 100 false).log.success = true ∧
    (ZKAPIService.sync_attendance
      (fun _ _ => FetchOutcome.ret (ReqRes.ok ⟨true, none, some batch10, none, none, none⟩))
      dev0 db0 100 false).db.attendance.length = db0.attendance.length + 9 :=
  C5_partial_batch_resilience
    (fun _ _ => FetchOutcome.ret (ReqRes.ok ⟨true, none, some batch10, none, none, none⟩))
    dev0 db0 100 false
    (ReqRes.ok ⟨true, none, some batch10, none, none, none⟩)
    ([rawT "t1", rawT "t2", rawT "t3", rawT "t4"].map (adapt_attendance dev0))
    ([rawT "t5", rawT "t6", rawT "t7", rawT "t8", rawT "t9"].map (adapt_attendance dev0))
    (adapt_attendance dev0 rawBad)
    rfl (by decide) rfl rfl (by decide) (by decide) (by decide) (by decide)
    (by decide) (by decide)

/-- Number of stored rows matching a dedup triple. -/
def matchCount (atts : List AttendanceRecord) (eid pt : Value) (ip : String) : Nat :=
  (atts.filter fun x =>
    decide (x.employee_id = eid ∧ x.punch_time = pt ∧ x.device_ip = ip)).length

theorem matchCount_append (xs ys : List AttendanceRecord) (eid pt : Value) (ip : String) :
    matchCount (xs ++ ys) eid pt ip = matchCount xs eid pt ip + matchCount ys eid pt ip := by
  simp [matchCount, List.filter_append]

theorem matchCount_eq_zero (xs : List AttendanceRecord) (eid pt : Value) (ip : String)
    (h : existsIn xs eid pt ip = false) : matchCount xs eid pt ip = 0 := by
  simp only [existsIn, List.any_eq_false] at h
  simp only [matchCount, List.length_eq_zero, List.filter_eq_nil_iff]
  exact h

/-- The freshly inserted row matches its own dedup triple. -/
theorem existsIn_self (device : Device) (a : AdaptedAttendance) :
    existsIn [toRow device a] (keyE a) (keyP a) device.ip_address = true := by
  simp [existsIn, toRow]

/-- C3: deduplication is idempotent across consecutive passes with
overlapping windows. A valid, fresh raw record whose employee exists is
persisted by the first pass (count 1); a second pass fetching the very same
raw record finds the committed row through the storage-backed existence check
(the dedup query runs against the attendance table threaded through both
passes, not a per-pass cache) and skips it (count 0), leaving exactly one
stored row for the record's (employee, punch time, device address) triple. -/
theorem C3_dedup_idempotent
    (transport1 transport2 : Time → Time → FetchOutcome ApiData)
    (device : Device) (db : DB) (now1 now2 : Time) (fa1 fa2 : Bool)
    (raw : RawAttendance) (d1 d2 : ApiData)
    (h1 : transport1 (windowStart device now1 fa1) now1 =
      FetchOutcome.ret (ReqRes.ok d1))
    (hs1 : d1.success = true)
    (hr1 : d1.rawRecords = [raw])
    (h2 : ∀ s e, transport2 s e = FetchOutcome.ret (ReqRes.ok d2))
    (hs2 : d2.success = true)
    (hr2 : d2.rawRecords = [raw])
    (hv : validA (adapt_attendance device raw) = true)
    (hk : hasEmployee db (keyE (adapt_attendance device raw)) = true)
    (hf : existsIn db.attendance (keyE (adapt_attendance device raw))
      (keyP (adapt_attendance device raw)) device.ip_address = false) :
    (ZKAPIService.sync_attendance transport1 device db now1 fa1).count = 1 ∧
    (ZKAPIService.sync_attendance transport2
      (ZKAPIService.sync_attendance transport1 device db now1 fa1).device
      (ZKAPIService.sync_attendance transport1 device db now1 fa1).db
      now2 fa2).count = 0 ∧
    matchCount
      (ZKAPIService.sync_attendance transport2
        (ZKAPIService.sync_attendance transport1 device db now1 fa1).device
        (ZKAPIService.sync_attendance transport1 device db now1 fa1).db
        now2 fa2).db.attendance
      (keyE (adapt_attendance device raw)) (keyP (adapt_attendance device raw))
      device.ip_address = 1 := by
  have hget1 : ZKAPIService.get_attendance_records device (ReqRes.ok d1) =
      ([adapt_attendance device raw], "") := by
    simp [ZKAPIService.get_attendance_records, hs1, hr1]
  have hfold1 : ([adapt_attendance device raw].foldl (syncStep device) (db, 0)) =
      ({ db with attendance :=
          db.attendance ++ [toRow device (adapt_attendance device raw)] }, 1) := by
    rw [List.foldl_cons, syncStep_insert device db 0 (adapt_attendance device raw) hv hf hk,
      List.foldl_nil]
  have hpass1 : ZKAPIService.sync_attendance transport1 device db now1 fa1 =
      ⟨⟨db.employees,
          db.attendance ++ [toRow device (adapt_attendance device raw)],
          db.sync_logs ++ [⟨device.id, "attendance", 1, true, "", now1, some now1⟩]⟩,
        ⟨device.id, device.ip_address, device.port, device.is_active, some now1⟩,
        1, "", ⟨device.id, "attendance", 1, true, "", now1, some now1⟩⟩ := by
    rw [api_sync_attendance_success_eq transport1 device db now1 fa1
      (ReqRes.ok d1) [adapt_attendance device raw] h1 hget1]
    rw [hfold1]
  rw [hpass1]
  have hget2 : ZKAPIService.get_attendance_records
      (⟨device.id, device.ip_address, device.port, device.is_active, some now1⟩ : Device)
      (ReqRes.ok d2) =
      ([adapt_attendance device raw], "") := by
    simp [ZKAPIService.get_attendance_records, hs2, hr2]
    rfl
  have hex : existsIn
      (db.attendance ++ [toRow device (adapt_attendance device raw)])
      (keyE (adapt_attendance device raw)) (keyP (adapt_attendance device raw))
      device.ip_address = true := by
    rw [existsIn_append, existsIn_self, Bool.or_true]
  have hfold2 : ([adapt_attendance device raw].foldl
      (syncStep ⟨device.id, device.ip_address, device.port, device.is_active, some now1⟩)
      ((⟨db.employees,
          db.attendance ++ [toRow device (adapt_attendance device raw)],
          db.sync_logs ++ [⟨device.id, "attendance", 1, true, "", now1, some now1⟩]⟩ : DB),
        0)) =
      (⟨db.employees,
          db.attendance ++ [toRow device (adapt_attendance device raw)],
          db.sync_logs ++ [⟨device.id, "attendance", 1, true, "", now1, some now1⟩]⟩, 0) := by
    rw [List.foldl_cons,
      syncStep_skip_exists _ _ 0 (adapt_attendance device raw) hv hex, List.foldl_nil]
  have hpass2 : ZKAPIService.sync_attendance transport2
      (⟨device.id, device.ip_address, device.port, device.is_active, some now1⟩ : Device)
      (⟨db.employees,
          db.attendance ++ [toRow device (adapt_attendance device raw)],
          db.sync_logs ++ [⟨device.id, "attendance", 1, true, "", now1, some now1⟩]⟩ : DB)
      now2 fa2 =
      ⟨⟨db.employees,
          db.attendance ++ [toRow device (adapt_attendance device raw)],
          (db.sync_logs ++ [⟨device.id, "attendance", 1, true, "", now1, some now1⟩]) ++
            [⟨device.id, "attendance", 0, true, "", now2, some now2⟩]⟩,
        ⟨device.id, device.ip_address, device.port, device.is_active, some now2⟩,
        0, "", ⟨device.id, "attendance", 0, true, "", now2, some now2⟩⟩ := by
    rw [api_sync_attendance_success_eq transport2 _ _ now2 fa2
      (ReqRes.ok d2) [adapt_attendance device raw] (h2 _ _) hget2]
    rw [hfold2]
  rw [hpass2]
  refine ⟨rfl, rfl, ?_⟩
  rw [matchCount_append, matchCount_eq_zero db.attendance _ _ _ hf]
  simp [matchCount, toRow]

/-- Witness for C3: the same raw punch for employee "1" fetched by two
consecutive passes. -/
theorem C3_dedup_idempotent_witness :
    (ZKAPIService.sync_attendance
      (fun _ _ => FetchOutcome.ret (ReqRes.ok ⟨true, none, some [rawT "t1"], none, none, none⟩))
      dev0 db0 100 false).count = 1 ∧
    (ZKAPIService.sync_attendance
      (fun _ _ => FetchOutcome.ret (ReqRes.ok ⟨true, none, some [rawT "t1"], none, none, none⟩))
      (ZKAPIService.sync_attendance
        (fun _ _ => FetchOutcome.ret (ReqRes.ok ⟨true, none, some [rawT "t1"], none, none, none⟩))
        dev0 db0 100 false).device
      (ZKAPIService.sync_attendance
        (fun _ _ => FetchOutcome.ret (ReqRes.ok ⟨true, none, some [rawT "t1"], none, none, none⟩))
        dev0 db0 100 false).db
      200 false).count = 0 ∧
    matchCount
      (ZKAPIService.sync_attendance
        (fun _ _ => FetchOutcome.ret (ReqRes.ok ⟨true, none, some [rawT "t1"], none, none, none⟩))
        (ZKAPIService.sync_attendance
          (fun _ _ => FetchOutcome.ret (ReqRes.ok ⟨true, none, some [rawT "t1"], none, none, none⟩))
          dev0 db0 100 false).device
        (ZKAPIService.sync_attendance
          (fun _ _ => FetchOutcome.ret (ReqRes.ok ⟨true, none, some [rawT "t1"], none, none, none⟩))
          dev0 db0 100 false).db
        200 false).db.attendance
      (keyE (adapt_attendance dev0 (rawT "t1"))) (keyP (adapt_attendance dev0 (rawT "t1")))
      dev0.ip_address = 1 :=
  C3_dedup_idempotent
    (fun _ _ => FetchOutcome.ret (ReqRes.ok ⟨true, none, some [rawT "t1"], none, none, none⟩))
    (fun _ _ => FetchOutcome.ret (ReqRes.ok ⟨true, none, some [rawT "t1"], none, none, none⟩))
    dev0 db0 100 200 false false (rawT "t1")
    ⟨true, none, some [rawT "t1"], none, none, none⟩
    ⟨true, none, some [rawT "t1"], none, none, none⟩
    rfl rfl (by decide) (fun _ _ => rfl) rfl (by decide)
    (by decide) (by decide) (by decide)

/-- C4: in a batch run over active devices A and B where A's transport throws
and B's transport succeeds with 3 valid, fresh, distinct records referencing
existing employees, the batch continues past A: B's 3 records are persisted,
A's DeviceSyncLog row is marked failed, B's row is marked succeeded, and the
aggregated total counts only the successful device's records. -/
theorem C4_multi_device_isolation
    (fetch : Device → Time → Time → FetchOutcome ApiData)
    (A B : Device) (db : DB) (now : Time) (msgA : String)
    (reqB : ReqRes ApiData) (b1 b2 b3 : AdaptedAttendance)
    (hA : A.is_active = true) (hB : B.is_active = true)
    (hfa : fetch A (windowStart A now false) now = FetchOutcome.raise msgA)
    (hfb : fetch B (windowStart B now false) now = FetchOutcome.ret reqB)
    (hgb : ZKAPIService.get_attendance_records B reqB = ([b1, b2, b3], ""))
    (hv1 : validA b1 = true) (hv2 : validA b2 = true) (hv3 : validA b3 = true)
    (hk1 : hasEmployee db (keyE b1) = true) (hk2 : hasEmployee db (keyE b2) = true)
    (hk3 : hasEmployee db (keyE b3) = true)
    (hf1 : existsIn db.attendance (keyE b1) (keyP b1) B.ip_address = false)
    (hf2 : existsIn db.attendance (keyE b2) (keyP b2) B.ip_address = false)
    (hf3 : existsIn db.attendance (keyE b3) (keyP b3) B.ip_address = false)
    (hd : List.Pairwise distinctKeys [b1, b2, b3]) :
    (Command.sync_attendance_all fetch [A, B] db now).total = 3 ∧
    (Command.sync_attendance_all fetch [A, B] db now).db.attendance =
      db.attendance ++ [toRow B b1, toRow B b2, toRow B b3] ∧
    (Command.sync_attendance_all fetch [A, B] db now).db.sync_logs =
      db.sync_logs ++
        [⟨A.id, "attendance", 0, false, msgA, now, some now⟩,
          ⟨B.id, "attendance", 3, true, "", now, some now⟩] := by
  have hrA := api_sync_attendance_raise_eq (fetch A) A db now false msgA hfa
  have hk' : ∀ a ∈ [b1, b2, b3], validA a = true →
      hasEmployee { db with sync_logs := db.sync_logs ++
        [⟨A.id, "attendance", 0, false, msgA, now, some now⟩] } (keyE a) = true := by
    intro a ha _
    simp only [List.mem_cons, List.mem_singleton, List.not_mem_nil, or_false] at ha
    rcases ha with rfl | rfl | rfl
    · exact hk1
    · exact hk2
    · exact hk3
  have hf' : ∀ a ∈ [b1, b2, b3], validA a = true →
      existsIn (({ db with sync_logs := db.sync_logs ++
        [⟨A.id, "attendance", 0, false, msgA, now, some now⟩] } : DB)).attendance
        (keyE a) (keyP a) B.ip_address = false := by
    intro a ha _
    simp only [List.mem_cons, List.mem_singleton, List.not_mem_nil, or_false] at ha
    rcases ha with rfl | rfl | rfl
    · exact hf1
    · exact hf2
    · exact hf3
  have hspec := foldl_syncStep_spec B [b1, b2, b3]
    { db with sync_logs := db.sync_logs ++
      [⟨A.id, "attendance", 0, false, msgA, now, some now⟩] } 0 hk' hf' hd
  have hcnt : ([b1, b2, b3].countP validA) = 3 := by
    rw [List.countP_cons_of_pos validA _ hv1, List.countP_cons_of_pos validA _ hv2,
      List.countP_cons_of_pos validA _ hv3, List.countP_nil]
  have hfil : ([b1, b2, b3].filter validA) = [b1, b2, b3] := by
    rw [List.filter_cons_of_pos hv1, List.filter_cons_of_pos hv2,
      List.filter_cons_of_pos hv3, List.filter_nil]
  have hrB := api_sync_attendance_success_eq (fetch B) B
    { db with sync_logs := db.sync_logs ++
      [⟨A.id, "attendance", 0, false, msgA, now, some now⟩] } now false
    reqB [b1, b2, b3] hfb hgb
  unfold Command.sync_attendance_all
  have hfilter : (List.filter (fun d => d.is_active) [A, B]) = [A, B] := by
    simp [List.filter_cons, hA, hB]
  rw [hfilter, List.foldl_cons, List.foldl_cons, List.foldl_nil]
  simp only [hrA, hrB]
  rw [hspec.1, hcnt] at *
  refine ⟨?_, ?_, ?_⟩
  · simp [hrB]
  · simp only [hspec.2.1, hfil]
    simp [List.map_cons]
  · simp only [foldl_syncStep_logs]
    simp

/-- The failing device of the batch-isolation witness. -/
def devA : Device := ⟨10, "10.0.0.9", 4370, true, none⟩

/-- The batch-isolation witness transport: device 10 throws, every other
device returns three punches for employee "1". -/
def fetchC4 (d : Device) (_s _e : Time) : FetchOutcome ApiData :=
  if d.id = 10 then FetchOutcome.raise "network down"
  else FetchOutcome.ret
    (ReqRes.ok ⟨true, none, some [rawT "t1", rawT "t2", rawT "t3"], none, none, none⟩)

/-- Witness for C4 at the concrete two-device batch. -/
theorem C4_multi_device_isolation_witness :
    (Command.sync_attendance_all fetchC4 [devA, dev0] db0 100).total = 3 ∧
    (Command.sync_attendance_all fetchC4 [devA, dev0] db0 100).db.attendance =
      db0.attendance ++
        [toRow dev0 (adapt_attendance dev0 (rawT "t1")),
          toRow dev0 (adapt_attendance dev0 (rawT "t2")),
          toRow dev0 (adapt_attendance dev0 (rawT "t3"))] ∧
    (Command.sync_attendance_all fetchC4 [devA, dev0] db0 100).db.sync_logs =
      db0.sync_logs ++
        [⟨devA.id, "attendance", 0, false, "network down", 100, some 100⟩,
          ⟨dev0.id, "attendance", 3, true, "", 100, some 100⟩] :=
  C4_multi_device_isolation fetchC4 devA dev0 db0 100 "network down"
    (ReqRes.ok ⟨true, none, some [rawT "t1", rawT "t2", rawT "t3"], none, none, none⟩)
    (adapt_attendance dev0 (rawT "t1")) (adapt_attendance dev0 (rawT "t2"))
    (adapt_attendance dev0 (rawT "t3"))
    rfl rfl rfl rfl (by decide) (by decide) (by decide) (by decide)
    (by decide) (by decide) (by decide) (by decide) (by decide) (by decide)
    (by decide)

/-- Witness for the amended C8 at concrete transports: a failing employees
fetch, a raising attendance transport, and a DLL fetch with an empty batch. -/
theorem C8_amended_one_log_per_attempt_witness :
    (ZKAPIService.sync_attendance (fun _ _ => FetchOutcome.raise "boom2")
      dev0 db0 5 false).log.completed_at = some 5 ∧
    (ZKAPIService.sync_employees (FetchOutcome.ret (ReqRes.fail "connection refused"))
      dev0 db0 5).log.completed_at =
      (match (FetchOutcome.ret (ReqRes.fail "connection refused") :
          FetchOutcome EmpApiData) with
        | FetchOutcome.raise _ => some 5
        | FetchOutcome.ret req =>
          if (ZKAPIService.get_employees req).2 = "" then some 5 else none) ∧
    (ZKDeviceService.sync_attendance (fun _ _ => DllFetch.ok ⟨true, some [], none⟩)
      dev0 db0 5).log.completed_at = none :=
  ⟨(C8_amended_one_log_per_attempt (fun _ _ => FetchOutcome.raise "boom2") dev0 db0 5
      false (FetchOutcome.ret (ReqRes.fail "connection refused")) dev0 db0 5
      (fun _ _ => DllFetch.ok ⟨true, some [], none⟩) dev0 db0 5).1.2.2.2.2.2,
    (C8_amended_one_log_per_attempt (fun _ _ => FetchOutcome.raise "boom2") dev0 db0 5
      false (FetchOutcome.ret (ReqRes.fail "connection refused")) dev0 db0 5
      (fun _ _ => DllFetch.ok ⟨true, some [], none⟩) dev0 db0 5).2.1.2.2.2.2.2,
    (C8_amended_one_log_per_attempt (fun _ _ => FetchOutcome.raise "boom2") dev0 db0 5
      false (FetchOutcome.ret (ReqRes.fail "connection refused")) dev0 db0 5
      (fun _ _ => DllFetch.ok ⟨true, some [], none⟩) dev0 db0 5).2.2.2.2.2.2.2⟩
